import Mathlib

/-!
# The request handler of the Gemini HTTP facade

A shallow embedding of `src/gemini/api/gemini.go`: the handler `generateText`
and its two generation helpers `generateTextWithText` and
`generateTextWithTextAndImage`.

The handler talks to three collaborators outside the repository.  Each is
embedded by what the handler observes of it:

* the HTTP request: the two form values and the result of `FormFile("image")`;
* the provider client: a function from a model identifier and the prompt parts
  to the Go pair `(resp, err)`; every invocation is recorded in a call log;
* the response writer: the status code and the body written by the single
  call of `http.Error` or `json.NewEncoder(w).Encode` on each path.

A nil pointer dereference ends the handler with a run-time fault instead of a
response; the embedding keeps that outcome apart from the written responses.
-/

namespace GeminiAPI

/-! ## Go values -/

/-- Byte sequences (`[]byte`). -/
abbrev Bytes := List (Fin 256)

/-- Go slices as far as the handler can tell them apart: the nil slice is
`none`, a non-nil slice is `some` of its elements. -/
abbrev Slice (α : Type) := Option (List α)

/-- Go `error` values: a plain message, or a message around an inner error as
built by `fmt.Errorf` with the `%w` verb. -/
inductive GoError where
  | errorString (msg : String)
  | wrapError (msg : String) (err : GoError)
  deriving DecidableEq, Repr

/-- The method `Error()`. -/
def GoError.Error : GoError → String
  | .errorString msg => msg
  | .wrapError msg _ => msg

/-- The method `Unwrap()`, as `errors.Unwrap` sees it. -/
def GoError.Unwrap : GoError → Option GoError
  | .errorString _ => none
  | .wrapError _ err => some err

/-! ## The provider library (`genai`) -/

/-- Prompt parts, named after the library constructors the source calls:
`genai.Text(text)` and `genai.ImageData(format, data)`. -/
inductive Part where
  | Text (text : String)
  | ImageData (format : String) (data : Bytes)
  deriving DecidableEq, Repr

/-- The struct `genai.Content`. -/
structure Content where
  Parts : Slice Part
  Role : String
  deriving DecidableEq, Repr

/-- The struct `genai.Candidate`; `Content` is a pointer and may be nil.  The
fields the handler never reads are left out. -/
structure Candidate where
  Content : Option Content
  deriving DecidableEq, Repr

/-- The struct `genai.GenerateContentResponse`; `Candidates` is a slice of
pointers.  A nil and an empty slice range over nothing alike, so the slice is a
list. -/
structure GenerateContentResponse where
  Candidates : List (Option Candidate)
  deriving DecidableEq, Repr

/-- The value of `client.GenerativeModel(name)`: what `GenerateContent` returns
for the prompt parts, as the Go pair `(resp, err)`. -/
structure GenerativeModel where
  GenerateContent : List Part → Option GenerateContentResponse × Option GoError

/-- The provider client `genai.Client`. -/
structure Client where
  GenerativeModel : String → GenerativeModel

/-- One invocation of the provider: the model identifier and the parts. -/
structure Call where
  model : String
  parts : List Part
  deriving DecidableEq, Repr

/-! ## The HTTP request and response -/

/-- The uploaded file as `io.Copy` reads it: the bytes delivered, and the error
that ended the stream if it was not the end of the file. -/
structure File where
  data : Bytes
  err : Option GoError
  deriving DecidableEq, Repr

/-- The request as the handler observes it: `FormValue("type")`,
`FormValue("text")` and the result of `FormFile("image")`. -/
structure Request where
  type : String
  text : String
  image : Except GoError File

/-- What has been written to the `http.ResponseWriter` when the handler
returns. -/
structure Response where
  status : Nat
  body : String
  deriving DecidableEq, Repr

/-- How a Go function ends: it returns a value, or a nil pointer dereference
raises a run-time fault. -/
inductive Result (α : Type) where
  | ok (a : α)
  | fault
  deriving DecidableEq, Repr

def http.StatusOK : Nat := 200
def http.StatusBadRequest : Nat := 400
def http.StatusInternalServerError : Nat := 500

/-- The library call `http.Error(w, error, code)` on a fresh writer: the status
code, and the message followed by a newline as the body. -/
def http.Error (error : String) (code : Nat) : Response :=
  { status := code, body := error ++ "\n" }

/-- The library call `json.NewEncoder(w).Encode(v)` on a fresh writer: the
first write sets status 200, the body is the JSON text of `v` and a newline.
The JSON text of a parts slice is a parameter; it is defined for every slice
of text and image parts. -/
def json.Encode (marshal : Slice Part → String) (v : Slice Part) : Response :=
  { status := http.StatusOK, body := marshal v ++ "\n" }

/-! ## The program -/

structure config where
  ApiKey : String
  HttpPort : String

structure geminiAPI where
  client : Client
  config : config

/-- The method `generateTextWithText`, lines 103 to 116: the returned pair
`([]genai.Part, error)` or a fault, together with the provider calls made. -/
def generateTextWithText (g : geminiAPI) (text : String) :
    Result (Slice Part × Option GoError) × List Call :=
  let model := g.client.GenerativeModel "gemini-pro"
  let log : List Call := [{ model := "gemini-pro", parts := [Part.Text text] }]
  match model.GenerateContent [Part.Text text] with
  | (_, some err) =>
    (.ok (none, some (.wrapError
      ("error generating content to text: " ++ text ++ ". error: " ++ err.Error) err)), log)
  | (none, none) => (.fault, log)
  | (some resp, none) =>
    match resp.Candidates with
    | [] => (.ok (none, some (.errorString "error generating response")), log)
    | none :: _ => (.fault, log)
    | some candidate :: _ =>
      match candidate.Content with
      | none => (.fault, log)
      | some content => (.ok (content.Parts, none), log)

/-- The method `generateTextWithTextAndImage`, lines 118 to 137. -/
def generateTextWithTextAndImage (g : geminiAPI) (text : String) (image : Bytes) :
    Result (Slice Part × Option GoError) × List Call :=
  let model := g.client.GenerativeModel "gemini-pro-vision"
  let prompt : List Part := [Part.ImageData "png" image, Part.Text text]
  let log : List Call := [{ model := "gemini-pro-vision", parts := prompt }]
  match model.GenerateContent prompt with
  | (_, some err) =>
    (.ok (none, some (.wrapError
      ("error generating content to text: " ++ text ++ ", with this image, error: "
        ++ err.Error) err)), log)
  | (none, none) => (.fault, log)
  | (some resp, none) =>
    match resp.Candidates with
    | [] => (.ok (none, some (.errorString "error generating response")), log)
    | none :: _ => (.fault, log)
    | some candidate :: _ =>
      match candidate.Content with
      | none => (.fault, log)
      | some content => (.ok (content.Parts, none), log)

/-- The tail of both switch cases of `generateText`: an error of the helper
becomes a 500 response, a result is encoded as JSON. -/
def respond (marshal : Slice Part → String)
    (res : Result (Slice Part × Option GoError) × List Call) : Result Response × List Call :=
  match res with
  | (.fault, log) => (.fault, log)
  | (.ok (_, some err), log) => (.ok (http.Error err.Error http.StatusInternalServerError), log)
  | (.ok (parts, none), log) => (.ok (json.Encode marshal parts), log)

/-- The handler `generateText`, lines 57 to 101: the response written, or a
fault, together with the provider calls made. -/
def generateText (g : geminiAPI) (marshal : Slice Part → String) (r : Request) :
    Result Response × List Call :=
  let typeValue := r.type
  let textValue := r.text
  if typeValue = "" ∨ textValue = "" then
    (.ok (http.Error "missing mandatory fields. type or text" http.StatusBadRequest), [])
  else
    match r.image with
    | .error err => (.ok (http.Error err.Error http.StatusBadRequest), [])
    | .ok image =>
      match image.err with
      | some _ => (.ok (http.Error "error reading image" http.StatusBadRequest), [])
      | none =>
        let imageBytes := image.data
        if typeValue = "modal" then
          respond marshal (generateTextWithText g textValue)
        else if typeValue = "multimodal" then
          respond marshal (generateTextWithTextAndImage g textValue imageBytes)
        else
          (.ok (http.Error "invalid type. Select modal or multimodal" http.StatusBadRequest), [])

/-! ## The handler as a step of the running process

The three methods take the pointer receiver `g`, the only state of the process
that a handler run can reach: the package declares no variable.  Here the
methods are embedded once more with that state passed in and handed back, so
that what a run leaves behind for the next one is a result of the definitions
and can be proved. -/

/-- The state of the process between two handler runs: the struct behind the
receiver `g`, and the provider calls made so far, oldest first. -/
structure Process where
  g : geminiAPI
  calls : List Call

/-- The method `generateTextWithText`, lines 103 to 116, on the process state:
the receiver is read at line 104 and the call of line 105 is recorded. -/
def generateTextWithTextStep (text : String) (s : Process) :
    Result (Slice Part × Option GoError) × Process :=
  let model := s.g.client.GenerativeModel "gemini-pro"
  let answer := model.GenerateContent [Part.Text text]
  let s : Process :=
    { g := s.g, calls := s.calls ++ [{ model := "gemini-pro", parts := [Part.Text text] }] }
  match answer with
  | (_, some err) =>
    (.ok (none, some (.wrapError
      ("error generating content to text: " ++ text ++ ". error: " ++ err.Error) err)), s)
  | (none, none) => (.fault, s)
  | (some resp, none) =>
    match resp.Candidates with
    | [] => (.ok (none, some (.errorString "error generating response")), s)
    | none :: _ => (.fault, s)
    | some candidate :: _ =>
      match candidate.Content with
      | none => (.fault, s)
      | some content => (.ok (content.Parts, none), s)

/-- The method `generateTextWithTextAndImage`, lines 118 to 137, on the process
state: the receiver is read at line 120 and the call of line 126 is recorded. -/
def generateTextWithTextAndImageStep (text : String) (image : Bytes) (s : Process) :
    Result (Slice Part × Option GoError) × Process :=
  let model := s.g.client.GenerativeModel "gemini-pro-vision"
  let prompt : List Part := [Part.ImageData "png" image, Part.Text text]
  let answer := model.GenerateContent prompt
  let s : Process :=
    { g := s.g, calls := s.calls ++ [{ model := "gemini-pro-vision", parts := prompt }] }
  match answer with
  | (_, some err) =>
    (.ok (none, some (.wrapError
      ("error generating content to text: " ++ text ++ ", with this image, error: "
        ++ err.Error) err)), s)
  | (none, none) => (.fault, s)
  | (some resp, none) =>
    match resp.Candidates with
    | [] => (.ok (none, some (.errorString "error generating response")), s)
    | none :: _ => (.fault, s)
    | some candidate :: _ =>
      match candidate.Content with
      | none => (.fault, s)
      | some content => (.ok (content.Parts, none), s)

/-- The tail of both switch cases of `generateText` on the process state. -/
def respondStep (marshal : Slice Part → String)
    (res : Result (Slice Part × Option GoError) × Process) : Result Response × Process :=
  match res with
  | (.fault, s) => (.fault, s)
  | (.ok (_, some err), s) => (.ok (http.Error err.Error http.StatusInternalServerError), s)
  | (.ok (parts, none), s) => (.ok (json.Encode marshal parts), s)

/-- The handler `generateText`, lines 57 to 101, on the process state: the
response written (or a fault) and the state the run leaves behind. -/
def generateTextStep (marshal : Slice Part → String) (r : Request) (s : Process) :
    Result Response × Process :=
  let typeValue := r.type
  let textValue := r.text
  if typeValue = "" ∨ textValue = "" then
    (.ok (http.Error "missing mandatory fields. type or text" http.StatusBadRequest), s)
  else
    match r.image with
    | .error err => (.ok (http.Error err.Error http.StatusBadRequest), s)
    | .ok image =>
      match image.err with
      | some _ => (.ok (http.Error "error reading image" http.StatusBadRequest), s)
      | none =>
        let imageBytes := image.data
        if typeValue = "modal" then
          respondStep marshal (generateTextWithTextStep textValue s)
        else if typeValue = "multimodal" then
          respondStep marshal (generateTextWithTextAndImageStep textValue imageBytes s)
        else
          (.ok (http.Error "invalid type. Select modal or multimodal" http.StatusBadRequest), s)

/-- The router of `StartServer`, line 50, hands every POST on "/" to
`generateText` of the one receiver.  A run of the server over a sequence of
requests, taken one after the other: each handler run starts in the state the
run before it left, also after a fault, which the HTTP server recovers. -/
def serve (marshal : Slice Part → String) : List Request → Process →
    List (Result Response) × Process
  | [], s => ([], s)
  | r :: rs, s =>
    ((generateTextStep marshal r s).1 :: (serve marshal rs (generateTextStep marshal r s).2).1,
      (serve marshal rs (generateTextStep marshal r s).2).2)

/-- Two results of `FormFile("image")` that the handler cannot tell apart:
both fail with the same message, or both files are read to the end with the
same bytes, or both files fail while being read. -/
def sameImage : Except GoError File → Except GoError File → Prop
  | .error e₁, .error e₂ => e₁.Error = e₂.Error
  | .ok f₁, .ok f₂ =>
    (f₁.err = none ∧ f₂.err = none ∧ f₁.data = f₂.data) ∨ (f₁.err ≠ none ∧ f₂.err ≠ none)
  | .error _, .ok _ => False
  | .ok _, .error _ => False

/-- Two requests with the same inputs to the handler: the same type, the same
text and image parts it cannot tell apart.  Identical requests are a case of
it; the requests may differ in what the handler never reads. -/
def sameInput (r₁ r₂ : Request) : Prop :=
  r₁.type = r₂.type ∧ r₁.text = r₂.text ∧ sameImage r₁.image r₂.image

/-! ## Sample collaborators and requests -/

/-- A provider response with one candidate holding the given parts. -/
def oneCandidate (parts : Slice Part) : GenerateContentResponse :=
  { Candidates := [some { Content := some { Parts := parts, Role := "model" } }] }

/-- A receiver whose provider gives the same pair for every model and prompt. -/
def constAPI (answer : Option GenerateContentResponse × Option GoError) : geminiAPI :=
  { client := { GenerativeModel := fun _ => { GenerateContent := fun _ => answer } },
    config := { ApiKey := "key", HttpPort := "8085" } }

/-- A provider that answers with one candidate holding the text part "Hi". -/
def sampleAPI : geminiAPI := constAPI (some (oneCandidate (some [Part.Text "Hi"])), none)

/-- A provider that answers without error and without candidates. -/
def emptyAPI : geminiAPI := constAPI (some { Candidates := [] }, none)

/-- A provider that fails with the error "quota exceeded". -/
def failingAPI : geminiAPI := constAPI (none, some (.errorString "quota exceeded"))

/-- A provider whose first candidate has a nil `Content`, followed by a
candidate with content. -/
def nilContentAPI : geminiAPI :=
  constAPI (some { Candidates := [some { Content := none },
    some { Content := some { Parts := some [Part.Text "Hi"], Role := "model" } }] }, none)

/-- A small stand-in for the JSON text of a parts slice. -/
def sampleMarshal : Slice Part → String
  | none => "null"
  | some ps => "[" ++ ",".intercalate (ps.map fun p =>
      match p with
      | .Text t => "\"" ++ t ++ "\""
      | .ImageData f _ => "\"" ++ f ++ "\"") ++ "]"

/-- A request with a readable image of the given bytes. -/
def upload (type text : String) (data : Bytes) : Request :=
  { type := type, text := text, image := .ok { data := data, err := none } }

/-- The string `sub` occurs in `s`. -/
def occursIn (sub s : String) : Prop := sub.data <:+: s.data

/-! ## Supporting lemmas -/

theorem respond_log (marshal : Slice Part → String)
    (res : Result (Slice Part × Option GoError) × List Call) :
    (respond marshal res).2 = res.2 := by
  rcases res with ⟨⟨parts, _ | err⟩ | _, log⟩ <;> rfl

theorem generateTextWithText_log (g : geminiAPI) (text : String) :
    (generateTextWithText g text).2 = [{ model := "gemini-pro", parts := [Part.Text text] }] := by
  unfold generateTextWithText
  dsimp only
  split
  · rfl
  · rfl
  · split
    · rfl
    · rfl
    · split <;> rfl

theorem generateTextWithTextAndImage_log (g : geminiAPI) (text : String) (image : Bytes) :
    (generateTextWithTextAndImage g text image).2 =
      [{ model := "gemini-pro-vision", parts := [Part.ImageData "png" image, Part.Text text] }] := by
  unfold generateTextWithTextAndImage
  dsimp only
  split
  · rfl
  · rfl
  · split
    · rfl
    · rfl
    · split <;> rfl

/-- The handler on a validated text-only request is the text-only helper
followed by the response step. -/
theorem generateText_modal (g : geminiAPI) (marshal : Slice Part → String) (r : Request)
    (f : File) (htype : r.type = "modal") (htext : r.text ≠ "")
    (himage : r.image = .ok f) (hread : f.err = none) :
    generateText g marshal r = respond marshal (generateTextWithText g r.text) := by
  simp [generateText, htype, htext, himage, hread]

/-- The handler on a validated multimodal request is the image-bearing helper
on the uploaded bytes followed by the response step. -/
theorem generateText_multimodal (g : geminiAPI) (marshal : Slice Part → String) (r : Request)
    (f : File) (htype : r.type = "multimodal") (htext : r.text ≠ "")
    (himage : r.image = .ok f) (hread : f.err = none) :
    generateText g marshal r =
      respond marshal (generateTextWithTextAndImage g r.text f.data) := by
  simp [generateText, htype, htext, himage, hread]

/-- The first check of the handler: an empty type or text ends it with the 400
response of the missing fields, before the image is looked at. -/
theorem generateText_missing (g : geminiAPI) (marshal : Slice Part → String) (r : Request)
    (hmissing : r.type = "" ∨ r.text = "") :
    generateText g marshal r =
      (.ok (http.Error "missing mandatory fields. type or text" http.StatusBadRequest), []) := by
  simp [generateText, hmissing]

/-- Every provider call of the handler is one of the two prompts, and is made
only for a request whose image part was read without error. -/
theorem generateText_log_cases (g : geminiAPI) (marshal : Slice Part → String) (r : Request) :
    (generateText g marshal r).2 = [] ∨
    (∃ f, r.image = .ok f ∧ f.err = none ∧ r.type = "modal" ∧ r.text ≠ "" ∧
      (generateText g marshal r).2 = [{ model := "gemini-pro", parts := [Part.Text r.text] }]) ∨
    (∃ f, r.image = .ok f ∧ f.err = none ∧ r.type = "multimodal" ∧ r.text ≠ "" ∧
      (generateText g marshal r).2 =
        [{ model := "gemini-pro-vision",
           parts := [Part.ImageData "png" f.data, Part.Text r.text] }]) := by
  by_cases hmiss : r.type = "" ∨ r.text = ""
  · left; simp [generateText, hmiss]
  · have htext : r.text ≠ "" := fun h => hmiss (Or.inr h)
    rcases himage : r.image with err | f
    · left; simp [generateText, hmiss, himage]
    · rcases hread : f.err with _ | e
      · by_cases hm : r.type = "modal"
        · right; left
          refine ⟨f, rfl, hread, hm, htext, ?_⟩
          rw [generateText_modal g marshal r f hm htext himage hread, respond_log,
            generateTextWithText_log]
        · by_cases hmm : r.type = "multimodal"
          · right; right
            refine ⟨f, rfl, hread, hmm, htext, ?_⟩
            rw [generateText_multimodal g marshal r f hmm htext himage hread, respond_log,
              generateTextWithTextAndImage_log]
          · left; simp [generateText, hmiss, himage, hread, hm, hmm]
      · left; simp [generateText, hmiss, himage, hread]

theorem occursIn_inner (a b c d : String) : occursIn b (a ++ b ++ c ++ d) := by
  refine ⟨a.data, c.data ++ d.data, ?_⟩
  simp [String.data_append]

theorem occursIn_last (a b : String) : occursIn b (a ++ b) := by
  refine ⟨a.data, [], ?_⟩
  simp [String.data_append]

/-- When the provider answers without error and the first candidate and its
content are present, the handler writes status 200 and the JSON text of the
parts of that candidate; the later candidates play no part. -/
theorem generateText_first_candidate (g : geminiAPI) (marshal : Slice Part → String)
    (r : Request) (f : File) (content : Content) (later : List (Option Candidate))
    (htype : r.type = "modal" ∨ r.type = "multimodal") (htext : r.text ≠ "")
    (himage : r.image = .ok f) (hread : f.err = none)
    (hmodal : r.type = "modal" →
      (g.client.GenerativeModel "gemini-pro").GenerateContent [Part.Text r.text] =
        (some { Candidates := some { Content := some content } :: later }, none))
    (hmulti : r.type = "multimodal" →
      (g.client.GenerativeModel "gemini-pro-vision").GenerateContent
          [Part.ImageData "png" f.data, Part.Text r.text] =
        (some { Candidates := some { Content := some content } :: later }, none)) :
    (generateText g marshal r).1 =
      .ok { status := 200, body := marshal content.Parts ++ "\n" } := by
  rcases htype with hm | hmm
  · rw [generateText_modal g marshal r f hm htext himage hread]
    simp [generateTextWithText, hmodal hm, respond, json.Encode, http.StatusOK]
  · rw [generateText_multimodal g marshal r f hmm htext himage hread]
    simp [generateTextWithTextAndImage, hmulti hmm, respond, json.Encode, http.StatusOK]

/-! ## The claims -/

/-- C1: on a request with type "modal", non-empty text and a readable image of
any content, the handler is the text-only helper followed by the response
step; the provider is invoked exactly once, with model "gemini-pro" and the
single part holding the text of the request; no call names the model
"gemini-pro-vision" and no part of a call is an image part. -/
theorem modal_invokes_text_only_path (g : geminiAPI) (marshal : Slice Part → String)
    (r : Request) (f : File) (htype : r.type = "modal") (htext : r.text ≠ "")
    (himage : r.image = .ok f) (hread : f.err = none) :
    generateText g marshal r = respond marshal (generateTextWithText g r.text) ∧
    (generateText g marshal r).2 = [{ model := "gemini-pro", parts := [Part.Text r.text] }] ∧
    (∀ c ∈ (generateText g marshal r).2, c.model ≠ "gemini-pro-vision" ∧
      ∀ format data, Part.ImageData format data ∉ c.parts) := by
  have hlog : (generateText g marshal r).2 =
      [{ model := "gemini-pro", parts := [Part.Text r.text] }] := by
    rw [generateText_modal g marshal r f htype htext himage hread, respond_log,
      generateTextWithText_log]
  refine ⟨generateText_modal g marshal r f htype htext himage hread, hlog, ?_⟩
  intro c hc
  rw [hlog, List.mem_singleton] at hc
  subst hc
  refine ⟨by show "gemini-pro" ≠ "gemini-pro-vision"; decide, ?_⟩
  intro format data hmem
  simp at hmem

theorem modal_invokes_text_only_path_witness :
    (upload "modal" "Hello" [137, 80]).image = .ok { data := [137, 80], err := none } ∧
    (generateText sampleAPI sampleMarshal (upload "modal" "Hello" [137, 80])).2 =
      [{ model := "gemini-pro", parts := [Part.Text "Hello"] }] :=
  ⟨rfl, (modal_invokes_text_only_path sampleAPI sampleMarshal (upload "modal" "Hello" [137, 80])
    { data := [137, 80], err := none } rfl (by decide) rfl rfl).2.1⟩

/-- C2: on a request with type "multimodal", non-empty text and a readable
image, the handler is the image-bearing helper followed by the response step;
the provider is invoked exactly once, with model "gemini-pro-vision" and
exactly two parts: first the image part tagged "png" holding the uploaded
bytes, second the text part holding the text of the request; no call names the
text-only model "gemini-pro". -/
theorem multimodal_invokes_vision_path (g : geminiAPI) (marshal : Slice Part → String)
    (r : Request) (f : File) (htype : r.type = "multimodal") (htext : r.text ≠ "")
    (himage : r.image = .ok f) (hread : f.err = none) :
    generateText g marshal r =
      respond marshal (generateTextWithTextAndImage g r.text f.data) ∧
    (generateText g marshal r).2 =
      [{ model := "gemini-pro-vision",
         parts := [Part.ImageData "png" f.data, Part.Text r.text] }] ∧
    (∀ c ∈ (generateText g marshal r).2, c.model ≠ "gemini-pro") := by
  have hlog : (generateText g marshal r).2 =
      [{ model := "gemini-pro-vision",
         parts := [Part.ImageData "png" f.data, Part.Text r.text] }] := by
    rw [generateText_multimodal g marshal r f htype htext himage hread, respond_log,
      generateTextWithTextAndImage_log]
  refine ⟨generateText_multimodal g marshal r f htype htext himage hread, hlog, ?_⟩
  intro c hc
  rw [hlog, List.mem_singleton] at hc
  subst hc
  show "gemini-pro-vision" ≠ "gemini-pro"
  decide

theorem multimodal_invokes_vision_path_witness :
    (upload "multimodal" "Describe" [137, 80]).image = .ok { data := [137, 80], err := none } ∧
    (generateText sampleAPI sampleMarshal (upload "multimodal" "Describe" [137, 80])).2 =
      [{ model := "gemini-pro-vision",
         parts := [Part.ImageData "png" [137, 80], Part.Text "Describe"] }] :=
  ⟨rfl, (multimodal_invokes_vision_path sampleAPI sampleMarshal
    (upload "multimodal" "Describe" [137, 80]) { data := [137, 80], err := none }
    rfl (by decide) rfl rfl).2.1⟩

/-- C3: the claim promises status 200 whatever the first candidate holds.  At a
provider answer without error whose first candidate has a nil Content (and
whose second candidate has content), the handler ends in a run-time fault in
both modes, after the single provider call, and writes no response. -/
theorem nil_content_faults (marshal : Slice Part → String) :
    generateText nilContentAPI marshal (upload "modal" "Hello" [137, 80]) =
      (.fault, [{ model := "gemini-pro", parts := [Part.Text "Hello"] }]) ∧
    generateText nilContentAPI marshal (upload "multimodal" "Describe" [137, 80]) =
      (.fault, [{ model := "gemini-pro-vision",
                  parts := [Part.ImageData "png" [137, 80], Part.Text "Describe"] }]) := by
  constructor <;> rfl

/-- C4: when the form value type is empty or the form value text is empty, the
handler writes status 400 with the message "missing mandatory fields. type or
text" (followed by the newline of http.Error), whatever the image part is, and
makes no provider call. -/
theorem missing_fields_is_400 (g : geminiAPI) (marshal : Slice Part → String) (r : Request)
    (hmissing : r.type = "" ∨ r.text = "") :
    generateText g marshal r =
      (.ok { status := 400, body := "missing mandatory fields. type or text" ++ "\n" }, []) := by
  rw [generateText_missing g marshal r hmissing]
  rfl

theorem missing_fields_is_400_witness :
    generateText sampleAPI sampleMarshal
        { type := "modal", text := "", image := .error (.errorString "http: no such file") } =
      (.ok { status := 400, body := "missing mandatory fields. type or text" ++ "\n" }, []) ∧
    generateText sampleAPI sampleMarshal (upload "" "Hello" [137, 80]) =
      (.ok { status := 400, body := "missing mandatory fields. type or text" ++ "\n" }, []) :=
  ⟨missing_fields_is_400 sampleAPI sampleMarshal
      { type := "modal", text := "", image := .error (.errorString "http: no such file") }
      (Or.inr rfl),
    missing_fields_is_400 sampleAPI sampleMarshal (upload "" "Hello" [137, 80]) (Or.inl rfl)⟩

/-- C5: when type is neither "modal" nor "multimodal", for every text and every
image part (present, absent or unreadable), the handler writes status 400 and
makes no provider call. -/
theorem invalid_type_is_400 (g : geminiAPI) (marshal : Slice Part → String) (r : Request)
    (hmodal : r.type ≠ "modal") (hmulti : r.type ≠ "multimodal") :
    (∃ body, (generateText g marshal r).1 = .ok { status := 400, body := body }) ∧
    (generateText g marshal r).2 = [] := by
  by_cases hmiss : r.type = "" ∨ r.text = ""
  · rw [generateText_missing g marshal r hmiss]
    exact ⟨⟨_, rfl⟩, rfl⟩
  · rcases himage : r.image with err | f
    · simp [generateText, hmiss, himage, http.Error, http.StatusBadRequest]
    · rcases hread : f.err with _ | e
      · simp [generateText, hmiss, himage, hread, hmodal, hmulti, http.Error,
          http.StatusBadRequest]
      · simp [generateText, hmiss, himage, hread, http.Error, http.StatusBadRequest]

theorem invalid_type_is_400_witness :
    (generateText sampleAPI sampleMarshal (upload "Modal" "Hello" [137, 80])).1 =
      .ok { status := 400, body := "invalid type. Select modal or multimodal\n" } ∧
    ((∃ body, (generateText sampleAPI sampleMarshal (upload "Modal" "Hello" [137, 80])).1 =
        .ok { status := 400, body := body }) ∧
      (generateText sampleAPI sampleMarshal (upload "Modal" "Hello" [137, 80])).2 = []) :=
  ⟨rfl, invalid_type_is_400 sampleAPI sampleMarshal (upload "Modal" "Hello" [137, 80])
    (by decide) (by decide)⟩

/-- C6: when the image form part is absent (FormFile fails) or cannot be read
(io.Copy fails), the handler writes status 400 whatever the type and text are,
also for type "modal" with non-empty text, and makes no provider call. -/
theorem unreadable_image_is_400 (g : geminiAPI) (marshal : Slice Part → String) (r : Request)
    (himage : (∃ e, r.image = .error e) ∨ (∃ f e, r.image = .ok f ∧ f.err = some e)) :
    (∃ body, (generateText g marshal r).1 = .ok { status := 400, body := body }) ∧
    (generateText g marshal r).2 = [] := by
  by_cases hmiss : r.type = "" ∨ r.text = ""
  · rw [generateText_missing g marshal r hmiss]
    exact ⟨⟨_, rfl⟩, rfl⟩
  · rcases himage with ⟨e, he⟩ | ⟨f, e, hf, he⟩
    · simp [generateText, hmiss, he, http.Error, http.StatusBadRequest]
    · simp [generateText, hmiss, hf, he, http.Error, http.StatusBadRequest]

theorem unreadable_image_is_400_witness :
    (generateText sampleAPI sampleMarshal
        { type := "modal", text := "Hello",
          image := .error (.errorString "http: no such file") }).1 =
      .ok { status := 400, body := "http: no such file\n" } ∧
    ((∃ body, (generateText sampleAPI sampleMarshal
        { type := "modal", text := "Hello",
          image := .ok { data := [137], err := some (.errorString "unexpected EOF") } }).1 =
        .ok { status := 400, body := body }) ∧
      (generateText sampleAPI sampleMarshal
        { type := "modal", text := "Hello",
          image := .ok { data := [137], err := some (.errorString "unexpected EOF") } }).2 =
        []) :=
  ⟨rfl, unreadable_image_is_400 sampleAPI sampleMarshal
    { type := "modal", text := "Hello",
      image := .ok { data := [137], err := some (.errorString "unexpected EOF") } }
    (Or.inr ⟨_, _, rfl, rfl⟩)⟩

/-- C7: for a validated request in either mode, when the provider call of that
mode returns a response without error and with zero candidates, the helper of
that mode returns nil parts and the error "error generating response", and the
handler writes status 500 with that message through http.Error, the only write
to the response. -/
theorem zero_candidates_is_500 (g : geminiAPI) (marshal : Slice Part → String)
    (r : Request) (f : File) (resp : GenerateContentResponse)
    (htype : r.type = "modal" ∨ r.type = "multimodal") (htext : r.text ≠ "")
    (himage : r.image = .ok f) (hread : f.err = none)
    (hmodal : r.type = "modal" →
      (g.client.GenerativeModel "gemini-pro").GenerateContent [Part.Text r.text] =
        (some resp, none))
    (hmulti : r.type = "multimodal" →
      (g.client.GenerativeModel "gemini-pro-vision").GenerateContent
          [Part.ImageData "png" f.data, Part.Text r.text] = (some resp, none))
    (hzero : resp.Candidates = []) :
    (r.type = "modal" → (generateTextWithText g r.text).1 =
      .ok (none, some (.errorString "error generating response"))) ∧
    (r.type = "multimodal" → (generateTextWithTextAndImage g r.text f.data).1 =
      .ok (none, some (.errorString "error generating response"))) ∧
    (generateText g marshal r).1 =
      .ok (http.Error "error generating response" http.StatusInternalServerError) ∧
    (generateText g marshal r).1 =
      .ok { status := 500, body := "error generating response" ++ "\n" } := by
  have h1 : r.type = "modal" → (generateTextWithText g r.text).1 =
      .ok (none, some (.errorString "error generating response")) := by
    intro hm
    simp [generateTextWithText, hmodal hm, hzero]
  have h2 : r.type = "multimodal" → (generateTextWithTextAndImage g r.text f.data).1 =
      .ok (none, some (.errorString "error generating response")) := by
    intro hmm
    simp [generateTextWithTextAndImage, hmulti hmm, hzero]
  have h3 : (generateText g marshal r).1 =
      .ok (http.Error "error generating response" http.StatusInternalServerError) := by
    rcases htype with hm | hmm
    · rw [generateText_modal g marshal r f hm htext himage hread]
      simp [generateTextWithText, hmodal hm, hzero, respond, GoError.Error]
    · rw [generateText_multimodal g marshal r f hmm htext himage hread]
      simp [generateTextWithTextAndImage, hmulti hmm, hzero, respond, GoError.Error]
  exact ⟨h1, h2, h3, h3⟩

theorem zero_candidates_is_500_witness :
    (generateText emptyAPI sampleMarshal (upload "multimodal" "Describe" [137, 80])).1 =
      .ok { status := 500, body := "error generating response" ++ "\n" } :=
  (zero_candidates_is_500 emptyAPI sampleMarshal (upload "multimodal" "Describe" [137, 80])
    { data := [137, 80], err := none } { Candidates := [] }
    (Or.inr rfl) (by decide) rfl rfl (fun _ => rfl) (fun _ => rfl) rfl).2.2.2

/-- C8: for a validated request in either mode, when the provider call of that
mode returns the error e, the helper of that mode returns nil parts and an
error that unwraps to e and whose message contains the text of the request and
the message of e, and the handler writes status 500 with that message. -/
theorem provider_error_is_500 (g : geminiAPI) (marshal : Slice Part → String)
    (r : Request) (f : File) (e : GoError)
    (htype : r.type = "modal" ∨ r.type = "multimodal") (htext : r.text ≠ "")
    (himage : r.image = .ok f) (hread : f.err = none)
    (hmodal : r.type = "modal" →
      ((g.client.GenerativeModel "gemini-pro").GenerateContent [Part.Text r.text]).2 = some e)
    (hmulti : r.type = "multimodal" →
      ((g.client.GenerativeModel "gemini-pro-vision").GenerateContent
          [Part.ImageData "png" f.data, Part.Text r.text]).2 = some e) :
    ∃ wrapped : GoError,
      wrapped.Unwrap = some e ∧
      occursIn r.text wrapped.Error ∧
      occursIn e.Error wrapped.Error ∧
      (r.type = "modal" → (generateTextWithText g r.text).1 = .ok (none, some wrapped)) ∧
      (r.type = "multimodal" →
        (generateTextWithTextAndImage g r.text f.data).1 = .ok (none, some wrapped)) ∧
      (generateText g marshal r).1 =
        .ok { status := 500, body := wrapped.Error ++ "\n" } := by
  rcases htype with hm | hmm
  · have hne : r.type ≠ "multimodal" := by rw [hm]; decide
    have hans := hmodal hm
    rcases hcall : (g.client.GenerativeModel "gemini-pro").GenerateContent [Part.Text r.text]
      with ⟨resp, err⟩
    rw [hcall] at hans
    simp only at hans
    subst hans
    have hhelper : generateTextWithText g r.text =
        (.ok (none, some (.wrapError
          ("error generating content to text: " ++ r.text ++ ". error: " ++ e.Error) e)),
         [{ model := "gemini-pro", parts := [Part.Text r.text] }]) := by
      simp [generateTextWithText, hcall]
    refine ⟨.wrapError
      ("error generating content to text: " ++ r.text ++ ". error: " ++ e.Error) e, rfl,
      occursIn_inner _ r.text _ _, occursIn_last _ e.Error, fun _ => by rw [hhelper],
      fun h => absurd h hne, ?_⟩
    rw [generateText_modal g marshal r f hm htext himage hread, hhelper]
    rfl
  · have hne : r.type ≠ "modal" := by rw [hmm]; decide
    have hans := hmulti hmm
    rcases hcall : (g.client.GenerativeModel "gemini-pro-vision").GenerateContent
      [Part.ImageData "png" f.data, Part.Text r.text] with ⟨resp, err⟩
    rw [hcall] at hans
    simp only at hans
    subst hans
    have hhelper : generateTextWithTextAndImage g r.text f.data =
        (.ok (none, some (.wrapError
          ("error generating content to text: " ++ r.text ++ ", with this image, error: "
            ++ e.Error) e)),
         [{ model := "gemini-pro-vision",
            parts := [Part.ImageData "png" f.data, Part.Text r.text] }]) := by
      simp [generateTextWithTextAndImage, hcall]
    refine ⟨.wrapError
      ("error generating content to text: " ++ r.text ++ ", with this image, error: "
        ++ e.Error) e, rfl,
      occursIn_inner _ r.text _ _, occursIn_last _ e.Error, fun h => absurd h hne,
      fun _ => by rw [hhelper], ?_⟩
    rw [generateText_multimodal g marshal r f hmm htext himage hread, hhelper]
    rfl

theorem provider_error_is_500_witness :
    (generateText failingAPI sampleMarshal (upload "modal" "Hello" [137, 80])).1 =
      .ok { status := 500,
            body := "error generating content to text: Hello. error: quota exceeded\n" } ∧
    ∃ wrapped : GoError,
      wrapped.Unwrap = some (.errorString "quota exceeded") ∧
      occursIn "Hello" wrapped.Error ∧
      occursIn "quota exceeded" wrapped.Error ∧
      ("modal" = "modal" → (generateTextWithText failingAPI "Hello").1 =
        .ok (none, some wrapped)) ∧
      ("modal" = "multimodal" →
        (generateTextWithTextAndImage failingAPI "Hello" [137, 80]).1 =
          .ok (none, some wrapped)) ∧
      (generateText failingAPI sampleMarshal (upload "modal" "Hello" [137, 80])).1 =
        .ok { status := 500, body := wrapped.Error ++ "\n" } :=
  ⟨rfl, provider_error_is_500 failingAPI sampleMarshal (upload "modal" "Hello" [137, 80])
    { data := [137, 80], err := none } (.errorString "quota exceeded")
    (Or.inl rfl) (by decide) rfl rfl (fun _ => rfl) (fun _ => rfl)⟩

/-- C9, as stated, fails: a multimodal request whose uploaded image has no
bytes is forwarded to the provider, with an image part holding no bytes. -/
theorem empty_image_is_forwarded :
    (generateText sampleAPI sampleMarshal
        { type := "multimodal", text := "Describe",
          image := .ok { data := [], err := none } }).2 =
      [{ model := "gemini-pro-vision",
         parts := [Part.ImageData "png" [], Part.Text "Describe"] }] ∧
    (generateText sampleAPI sampleMarshal
        { type := "multimodal", text := "Describe",
          image := .ok { data := [], err := none } }).1 =
      .ok { status := 200, body := "[\"Hi\"]\n" } := by
  constructor <;> rfl

/-- C9, amended: whenever the handler invokes the image-bearing path (a call
naming "gemini-pro-vision"), the type is "multimodal", the image form part was
present and read without error, and the call holds exactly the uploaded bytes
in its image part, followed by the text; the bytes may be none at all. -/
theorem vision_call_carries_upload (g : geminiAPI) (marshal : Slice Part → String)
    (r : Request) (c : Call) (hcall : c ∈ (generateText g marshal r).2)
    (hvision : c.model = "gemini-pro-vision") :
    ∃ f, r.image = .ok f ∧ f.err = none ∧ r.type = "multimodal" ∧
      c.parts = [Part.ImageData "png" f.data, Part.Text r.text] := by
  rcases generateText_log_cases g marshal r with h | ⟨f, _, _, _, _, h⟩ | ⟨f, hf, hr, ht, _, h⟩
  · rw [h] at hcall
    simp at hcall
  · rw [h, List.mem_singleton] at hcall
    subst hcall
    exact absurd hvision (by show "gemini-pro" ≠ "gemini-pro-vision"; decide)
  · rw [h, List.mem_singleton] at hcall
    subst hcall
    exact ⟨f, hf, hr, ht, rfl⟩

theorem vision_call_carries_upload_witness :
    ∃ f, (upload "multimodal" "Describe" [137, 80]).image = .ok f ∧ f.err = none ∧
      (upload "multimodal" "Describe" [137, 80]).type = "multimodal" ∧
      [Part.ImageData "png" [137, 80], Part.Text "Describe"] =
        [Part.ImageData "png" f.data, Part.Text (upload "multimodal" "Describe" [137, 80]).text] :=
  vision_call_carries_upload sampleAPI sampleMarshal (upload "multimodal" "Describe" [137, 80])
    { model := "gemini-pro-vision",
      parts := [Part.ImageData "png" [137, 80], Part.Text "Describe"] }
    (List.mem_singleton.mpr rfl) rfl

/-! ## The handler in the running process -/

/-- The text-only helper on the process state returns what the helper returns
for the receiver, leaves the receiver as it was and appends its one call. -/
theorem generateTextWithTextStep_eq (text : String) (s : Process) :
    generateTextWithTextStep text s =
      ((generateTextWithText s.g text).1,
        { g := s.g, calls := s.calls ++ (generateTextWithText s.g text).2 }) := by
  unfold generateTextWithTextStep generateTextWithText
  dsimp only
  split
  · rfl
  · rfl
  · split
    · rfl
    · rfl
    · split <;> rfl

/-- The image-bearing helper on the process state returns what the helper
returns for the receiver, leaves the receiver as it was and appends its one
call. -/
theorem generateTextWithTextAndImageStep_eq (text : String) (image : Bytes) (s : Process) :
    generateTextWithTextAndImageStep text image s =
      ((generateTextWithTextAndImage s.g text image).1,
        { g := s.g, calls := s.calls ++ (generateTextWithTextAndImage s.g text image).2 }) := by
  unfold generateTextWithTextAndImageStep generateTextWithTextAndImage
  dsimp only
  split
  · rfl
  · rfl
  · split
    · rfl
    · rfl
    · split <;> rfl

theorem respondStep_eq (marshal : Slice Part → String)
    (res : Result (Slice Part × Option GoError) × List Call) (s : Process) :
    respondStep marshal (res.1, { g := s.g, calls := s.calls ++ res.2 }) =
      ((respond marshal res).1, { g := s.g, calls := s.calls ++ (respond marshal res).2 }) := by
  rcases res with ⟨⟨parts, _ | err⟩ | _, log⟩ <;> rfl

/-- A handler run on the process state writes what the handler writes for the
receiver, leaves the receiver as it was and appends the calls it made. -/
theorem generateTextStep_eq (marshal : Slice Part → String) (r : Request) (s : Process) :
    generateTextStep marshal r s =
      ((generateText s.g marshal r).1,
        { g := s.g, calls := s.calls ++ (generateText s.g marshal r).2 }) := by
  by_cases hmiss : r.type = "" ∨ r.text = ""
  · simp [generateTextStep, generateText, hmiss]
  · have htext : r.text ≠ "" := fun h => hmiss (Or.inr h)
    rcases himage : r.image with err | f
    · simp [generateTextStep, generateText, hmiss, himage]
    · rcases hread : f.err with _ | e
      · by_cases hm : r.type = "modal"
        · rw [generateText_modal s.g marshal r f hm htext himage hread]
          have hstep : generateTextStep marshal r s =
              respondStep marshal (generateTextWithTextStep r.text s) := by
            simp [generateTextStep, hm, htext, himage, hread]
          rw [hstep, generateTextWithTextStep_eq, respondStep_eq]
        · by_cases hmm : r.type = "multimodal"
          · rw [generateText_multimodal s.g marshal r f hmm htext himage hread]
            have hstep : generateTextStep marshal r s =
                respondStep marshal (generateTextWithTextAndImageStep r.text f.data s) := by
              simp [generateTextStep, hmm, htext, himage, hread]
            rw [hstep, generateTextWithTextAndImageStep_eq, respondStep_eq]
          · simp [generateTextStep, generateText, hmiss, himage, hread, hm, hmm]
      · simp [generateTextStep, generateText, hmiss, himage, hread]

/-- No run of the server changes the receiver. -/
theorem serve_receiver (marshal : Slice Part → String) (rs : List Request) (s : Process) :
    (serve marshal rs s).2.g = s.g := by
  induction rs generalizing s with
  | nil => rfl
  | cons r rs ih =>
    show (serve marshal rs (generateTextStep marshal r s).2).2.g = s.g
    rw [ih, generateTextStep_eq]

/-- The handler reads the receiver through its provider client only. -/
theorem generateText_client (g₁ g₂ : geminiAPI) (marshal : Slice Part → String) (r : Request)
    (hclient : g₁.client = g₂.client) :
    generateText g₁ marshal r = generateText g₂ marshal r := by
  simp only [generateText, generateTextWithText, generateTextWithTextAndImage, hclient]

/-- The handler tells no two requests with the same inputs apart. -/
theorem generateText_sameInput (g : geminiAPI) (marshal : Slice Part → String)
    (r₁ r₂ : Request) (hinput : sameInput r₁ r₂) :
    generateText g marshal r₁ = generateText g marshal r₂ := by
  obtain ⟨htype, htext, himage⟩ := hinput
  by_cases hmiss : r₂.type = "" ∨ r₂.text = ""
  · rw [generateText_missing g marshal r₁ (by rw [htype, htext]; exact hmiss),
      generateText_missing g marshal r₂ hmiss]
  · rcases h₁ : r₁.image with e₁ | f₁ <;> rcases h₂ : r₂.image with e₂ | f₂ <;>
      rw [h₁, h₂] at himage
    · have hmsg : e₁.Error = e₂.Error := himage
      simp [generateText, htype, htext, hmiss, h₁, h₂, hmsg]
    · exact himage.elim
    · exact himage.elim
    · rcases himage with ⟨hr₁, hr₂, hdata⟩ | ⟨hr₁, hr₂⟩
      · simp [generateText, htype, htext, hmiss, h₁, h₂, hr₁, hr₂, hdata]
      · obtain ⟨x₁, hx₁⟩ := Option.ne_none_iff_exists'.mp hr₁
        obtain ⟨x₂, hx₂⟩ := Option.ne_none_iff_exists'.mp hr₂
        simp [generateText, htype, htext, hmiss, h₁, h₂, hx₁, hx₂]

/-- Identical requests have the same inputs, whatever their image part is. -/
theorem sameInput_refl (r : Request) : sameInput r r := by
  refine ⟨rfl, rfl, ?_⟩
  rcases h : r.image with e | f
  · exact rfl
  · show (f.err = none ∧ f.err = none ∧ f.data = f.data) ∨ (f.err ≠ none ∧ f.err ≠ none)
    by_cases hf : f.err = none
    · exact Or.inl ⟨hf, hf, rfl⟩
    · exact Or.inr ⟨hf, hf⟩

/-- C10: the handler is deterministic relative to the provider and keeps no
state between requests.  Take two processes with the same provider function
(their configuration and their earlier provider calls may differ), two
requests with the same inputs (the same type, the same text, and image parts
that are absent with the same message, or unreadable, or read with the same
bytes), and any two histories of requests served before them.  Then the two
runs write the same status and body, or both fault, and make the same provider
calls; both are what the handler gives for the receiver and the request alone;
and the run leaves the receiver as the process started with it. -/
theorem generateText_deterministic (marshal : Slice Part → String) (s₁ s₂ : Process)
    (r₁ r₂ : Request) (earlier₁ earlier₂ : List Request)
    (hprovider : s₁.g.client = s₂.g.client) (hinput : sameInput r₁ r₂) :
    (generateTextStep marshal r₁ (serve marshal earlier₁ s₁).2).1 =
      (generateTextStep marshal r₂ (serve marshal earlier₂ s₂).2).1 ∧
    (generateTextStep marshal r₁ (serve marshal earlier₁ s₁).2).1 =
      (generateText s₁.g marshal r₁).1 ∧
    (generateTextStep marshal r₁ (serve marshal earlier₁ s₁).2).2.calls =
      (serve marshal earlier₁ s₁).2.calls ++ (generateText s₁.g marshal r₁).2 ∧
    (generateTextStep marshal r₂ (serve marshal earlier₂ s₂).2).2.calls =
      (serve marshal earlier₂ s₂).2.calls ++ (generateText s₁.g marshal r₁).2 ∧
    (generateTextStep marshal r₁ (serve marshal earlier₁ s₁).2).2.g = s₁.g ∧
    generateText s₁.g marshal r₁ = generateText s₂.g marshal r₂ := by
  have hpure : generateText s₁.g marshal r₁ = generateText s₂.g marshal r₂ := by
    rw [generateText_client s₁.g s₂.g marshal r₁ hprovider]
    exact generateText_sameInput s₂.g marshal r₁ r₂ hinput
  rw [generateTextStep_eq, generateTextStep_eq, serve_receiver, serve_receiver, hpure]
  exact ⟨rfl, rfl, rfl, rfl, rfl, rfl⟩

theorem generateText_deterministic_witness :
    (generateTextStep sampleMarshal (upload "modal" "Hello" [137, 80])
        (serve sampleMarshal [upload "multimodal" "Describe" [1], upload "" "x" []]
          { g := sampleAPI, calls := [] }).2).1 =
      .ok { status := 200, body := "[\"Hi\"]\n" } ∧
    (generateTextStep sampleMarshal (upload "modal" "Hello" [137, 80])
        (serve sampleMarshal [upload "multimodal" "Describe" [1], upload "" "x" []]
          { g := sampleAPI, calls := [] }).2).1 =
      (generateTextStep sampleMarshal (upload "modal" "Hello" [137, 80])
        (serve sampleMarshal []
          { g := { client := sampleAPI.client, config := { ApiKey := "k2", HttpPort := "9090" } },
            calls := [{ model := "gemini-pro", parts := [Part.Text "Earlier"] }] }).2).1 :=
  ⟨rfl, (generateText_deterministic sampleMarshal { g := sampleAPI, calls := [] }
    { g := { client := sampleAPI.client, config := { ApiKey := "k2", HttpPort := "9090" } },
      calls := [{ model := "gemini-pro", parts := [Part.Text "Earlier"] }] }
    (upload "modal" "Hello" [137, 80]) (upload "modal" "Hello" [137, 80])
    [upload "multimodal" "Describe" [1], upload "" "x" []] []
    rfl ⟨rfl, rfl, Or.inl ⟨rfl, rfl, rfl⟩⟩).1⟩

end GeminiAPI
